import Mathlib

/-!
Shallow embedding of the rs_tools download-orchestration code:
  * src/rs_tools/_src/data/msg/downloader_msg_modis_overpass.py
  * src/rs_tools/_src/data/modis/downloader_terra.py
Timestamps, file names and granule identifiers are modelled as `String`;
external collaborator capabilities (the transport functions `msg_download`
and `modis_download`, the granule-identifier parser
`modis_granule_to_datetime`, the file-name parser
`MSGFileName.from_filename(...).datetime_acquisition`, and the EarthData
session check) are passed in as explicit parameters, since they live
outside the two source files.
-/

set_option autoImplicit false

namespace RsTools

/-- Errors a run of the MSG orchestrator can abort with.  The Python code
raises `AssertionError` for a length mismatch (the abstract taxonomy of the
design calls this a reconciliation error), `UnboundLocalError` when the
selector falls through without binding `modis_downloader`, and the design
names an authentication error for a missing provider session. -/
inductive RunError where
  | authenticationError
  | unboundLocalError (name : String)
  | reconciliationError (msg : String)
  deriving DecidableEq, Repr

/-- The tabular summary file compiled at the end of a run
(`downloader_msg_modis_overpass.py`, lines 152-168).  `modisCol` is the
column named `MODIS`, `msgCol` the column named `MSG`; the two optional
fields are the `MODIS_cloudmask` and `MSG_cloudmask` columns, present only
when the corresponding assignments succeed. -/
structure Manifest where
  modisCol : List String
  msgCol : List String
  modisCloudmaskCol : Option (List String)
  msgCloudmaskCol : Option (List String)
  deriving DecidableEq, Repr

/-- Embedding of the manifest-compiling tail of `download`
(`downloader_msg_modis_overpass.py`, lines 147-168).

* `if len(msg_filenames) > 0` guards the whole block; an empty file list
  produces no manifest and no error (`Except.ok none`).
* `assert len(msg_filenames) == len(msg_queries)` raises an uncaught
  `AssertionError` on mismatch (modelled as `reconciliationError` with the
  assert message).
* Under `if cloud_mask:`, `assert len(msg_cm_filenames) == len(msg_cm_queries)`
  is OUTSIDE the `try`, so its failure also aborts the run.
* The `try` block assigns `df[MODIS_cloudmask] = msg_cm_queries` and
  `df[MSG_cloudmask] = list_msg_cm_times`; pandas raises (caught and
  logged) exactly when the assigned list length differs from the row count
  `len(list_modis_times)`, in which case the manifest is written without
  cloud-mask columns.
`fileToAcq` models `str(MSGFileName.from_filename(f).datetime_acquisition)`. -/
def buildManifest (cloud_mask : Bool)
    (msg_filenames msg_queries msg_cm_filenames msg_cm_queries : List String)
    (fileToAcq : String → String) : Except RunError (Option Manifest) :=
  if msg_filenames.length > 0 then
    if msg_filenames.length = msg_queries.length then
      let list_modis_times := msg_queries
      let list_msg_times := msg_filenames.map fileToAcq
      if cloud_mask then
        if msg_cm_filenames.length = msg_cm_queries.length then
          let list_msg_cm_times := msg_cm_filenames.map fileToAcq
          if msg_cm_queries.length = list_modis_times.length then
            Except.ok (some ⟨list_modis_times, list_msg_times,
              some msg_cm_queries, some list_msg_cm_times⟩)
          else
            Except.ok (some ⟨list_modis_times, list_msg_times, none, none⟩)
        else
          Except.error (.reconciliationError "Mismatch between queries and downloaded files")
      else
        Except.ok (some ⟨list_modis_times, list_msg_times, none, none⟩)
    else
      Except.error (.reconciliationError "Mismatch between queries and downloaded files")
  else
    Except.ok none

/-- Python `s.startswith(p)` on our string model. -/
def pyStartsWith (p s : String) : Bool :=
  p.data.isPrefixOf s.data

/-- The two polar downloader variants the orchestrator can select. -/
inductive PolarSat where
  | aqua
  | terra
  deriving DecidableEq, Repr

/-- Embedding of the downloader selector
(`downloader_msg_modis_overpass.py`, lines 112-115):

    if modis_product.startswith("MYD"):   modis_downloader = aqua_downloader
    elif modis_product.startswith("MOD"): modis_downloader = terra_downloader

There is no `else` branch, so any other product name leaves
`modis_downloader` unbound, modelled by `none`. -/
def selectModisDownloader (modis_product : String) : Option PolarSat :=
  if pyStartsWith "MYD" modis_product then some PolarSat.aqua
  else if pyStartsWith "MOD" modis_product then some PolarSat.terra
  else none

/-- The MSGDownload dataclass (`downloader_msg_modis_overpass.py`, lines
19-23): it holds the predefined timestamps and the save directory. -/
structure MSGDownload where
  predefined_timestamps : List String
  save_dir : String
  deriving DecidableEq, Repr

/-- The orchestrator constructs the MSG downloader with
`predefined_timestamps=modis_timestamps` where
`modis_timestamps = [modis_granule_to_datetime(x) for x in modis_results]`
(lines 87 and 132-135).  `granToTime` models `modis_granule_to_datetime`. -/
def orchestratorMsgDownloader (granToTime : String → String)
    (modis_results : List String) (save_dir : String) : MSGDownload :=
  ⟨modis_results.map granToTime, save_dir ++ "/msg"⟩

/-- The `download` method of MSGDownload (lines 25-33): it calls the
external `msg_download` transport with `predefined_timestamps =
self.predefined_timestamps` (the other arguments are the fixed strings
satellite "MSG", instrument "HRSEVIRI", level "L1" and the L1b subpath).
The transport returns the pair of file names and matched query
timestamps. -/
def MSGDownload.download (self : MSGDownload)
    (transport : List String → List String × List String) :
    List String × List String :=
  transport self.predefined_timestamps

/-- The `download_cloud_mask` method of MSGDownload (lines 35-43): same
shape, instrument "CLM" and the CM subpath. -/
def MSGDownload.download_cloud_mask (self : MSGDownload)
    (transport : List String → List String × List String) :
    List String × List String :=
  transport self.predefined_timestamps

/-- Observable steps of one orchestrator run, in program order.  The two
MSG download events record the predefined-timestamp list handed to the
transport. -/
inductive Event where
  | authCheck
  | catalogQuery
  | logGranuleCount (n : Nat)
  | modisBaseDownload
  | modisCloudMaskDownload
  | modisFireMaskDownload
  | msgBaseDownload (predefined : List String)
  | msgCloudMaskDownload (predefined : List String)
  | manifestWrite
  deriving DecidableEq, Repr

/-- The external collaborators one orchestrator run consumes, fixed up
front: the EarthData session state, the catalog query result, the
granule-identifier parser, the two MSG transport calls (each mapping the
predefined timestamps to a pair of file-name and matched-query lists),
and the MSG file-name parser. -/
structure Collab where
  authenticated : Bool
  queryResults : List String
  granToTime : String → String
  msgDownloadFn : List String → List String × List String
  msgCmDownloadFn : List String → List String × List String
  fileToAcq : String → String

/-- Embedding of the orchestrator `download`
(`downloader_msg_modis_overpass.py`, lines 46-171) as the trace of events
it performs plus its outcome.

* `_check_earthdata_login()` (line 75) runs first; per the design it
  raises an authentication error when the provider session is missing
  (the helper itself lives outside the two source files), so nothing
  after it runs in that case.
* `query_modis_timestamps` (line 80) is the only catalog call, followed by
  the granule-count log line (line 85) and the identifier conversion
  (line 87).
* The selector (lines 112-115) has no `else`: an unmatched product name
  leaves `modis_downloader` unbound and the first use at line 118 raises
  `UnboundLocalError` before any polar download happens.
* Polar base, cloud-mask and fire-mask downloads (lines 117-127) run in
  that order per the flags; the variants used here are imported from
  `downloader_aqua_day.py` / `downloader_terra_day.py`, files not in this
  tree, so they are modelled after the design as supporting all three.
* MSG base download (line 137), MSG cloud-mask download if requested
  (line 142), then the manifest block (lines 147-168); the CSV write at
  line 168 happens exactly when the block builds a DataFrame. -/
def orchestratorRun (modis_product : String) (cloud_mask fire_mask : Bool)
    (save_dir : String) (c : Collab) :
    List Event × Except RunError (Option Manifest) :=
  if c.authenticated then
    let ev0 : List Event :=
      [Event.authCheck, Event.catalogQuery, Event.logGranuleCount c.queryResults.length]
    match selectModisDownloader modis_product with
    | none => (ev0, Except.error (.unboundLocalError "modis_downloader"))
    | some _sat =>
      let ev1 := ev0 ++ [Event.modisBaseDownload]
        ++ (if cloud_mask then [Event.modisCloudMaskDownload] else [])
        ++ (if fire_mask then [Event.modisFireMaskDownload] else [])
      let dc_msg_download := orchestratorMsgDownloader c.granToTime c.queryResults save_dir
      let msgPair := dc_msg_download.download c.msgDownloadFn
      let ev2 := ev1 ++ [Event.msgBaseDownload dc_msg_download.predefined_timestamps]
      let cmPair :=
        if cloud_mask then dc_msg_download.download_cloud_mask c.msgCmDownloadFn else ([], [])
      let ev3 := ev2 ++
        (if cloud_mask then [Event.msgCloudMaskDownload dc_msg_download.predefined_timestamps]
         else [])
      match buildManifest cloud_mask msgPair.1 msgPair.2 cmPair.1 cmPair.2 c.fileToAcq with
      | Except.error e => (ev3, Except.error e)
      | Except.ok none => (ev3, Except.ok none)
      | Except.ok (some m) => (ev3 ++ [Event.manifestWrite], Except.ok (some m))
  else
    ([Event.authCheck], Except.error .authenticationError)

/-- The manifest stage as a function of the requested MODIS query
timestamps: lines 132-168 in isolation, with the two MSG transport calls
abstract.  Used to relate the manifest contents to the list the MSG
downloader was given. -/
def manifestFromRun (modis_timestamps : List String)
    (msgDownloadFn msgCmDownloadFn : List String → List String × List String)
    (cloud_mask : Bool) (fileToAcq : String → String) :
    Except RunError (Option Manifest) :=
  let msgPair := msgDownloadFn modis_timestamps
  let cmPair := if cloud_mask then msgCmDownloadFn modis_timestamps else ([], [])
  buildManifest cloud_mask msgPair.1 msgPair.2 cmPair.1 cmPair.2 fileToAcq

/-- The argument record of one `modis_download(...)` invocation
(`downloader_terra.py`); every keyword argument of the call is a field.
`save_sub` is the subpath joined onto `save_dir`
(`Path(self.save_dir).joinpath(...)`). -/
structure ModisDownloadCall where
  start_date : String
  end_date : String
  start_time : String
  end_time : String
  day_step : Nat
  satellite : String
  save_root : String
  save_sub : String
  processing_level : String
  resolution : String
  bounding_box : List Int
  day_night_flag : Option String
  identifier : String
  deriving DecidableEq, Repr

/-- The MODISTerraDownload dataclass (`downloader_terra.py`, lines 17-26).
The bounding box is modelled as the list of numbers the entry point
constructs with `tuple(map(lambda x: int(x), region.split(" ")))`. -/
structure MODISTerraDownload where
  start_date : String
  end_date : String
  start_time : String
  end_time : String
  save_dir : String
  bounding_box : List Int
  deriving DecidableEq, Repr

/-- The `download` method (`downloader_terra.py`, lines 27-42) as the
`modis_download` call it issues: base L1b product, identifier "02". -/
def MODISTerraDownload.download (self : MODISTerraDownload) : ModisDownloadCall :=
  { start_date := self.start_date
    end_date := self.end_date
    start_time := self.start_time
    end_time := self.end_time
    day_step := 1
    satellite := "Terra"
    save_root := self.save_dir
    save_sub := "L1b"
    processing_level := "L1b"
    resolution := "1KM"
    bounding_box := self.bounding_box
    day_night_flag := none
    identifier := "02" }

/-- The FIRST `download_cloud_mask` definition
(`downloader_terra.py`, lines 44-59). -/
def MODISTerraDownload.download_cloud_mask_first (self : MODISTerraDownload) :
    ModisDownloadCall :=
  { start_date := self.start_date
    end_date := self.end_date
    start_time := self.start_time
    end_time := self.end_time
    day_step := 1
    satellite := "Terra"
    save_root := self.save_dir
    save_sub := "CM"
    processing_level := "L2"
    resolution := "1KM"
    bounding_box := self.bounding_box
    day_night_flag := none
    identifier := "35" }

/-- The SECOND `download_cloud_mask` definition
(`downloader_terra.py`, lines 61-76), the one that shadows the first in
the class namespace. -/
def MODISTerraDownload.download_cloud_mask_second (self : MODISTerraDownload) :
    ModisDownloadCall :=
  { start_date := self.start_date
    end_date := self.end_date
    start_time := self.start_time
    end_time := self.end_time
    day_step := 1
    satellite := "Terra"
    save_root := self.save_dir
    save_sub := "CM"
    processing_level := "L2"
    resolution := "1KM"
    bounding_box := self.bounding_box
    day_night_flag := none
    identifier := "35" }

/-- The methods the class body of `MODISTerraDownload` actually defines. -/
inductive TerraMethod where
  | downloadBase
  | downloadCloudMask
  deriving DecidableEq, Repr

/-- Python attribute lookup on a `MODISTerraDownload` instance: the class
dictionary ends up with exactly `download` and `download_cloud_mask`
(the second definition having replaced the first); there is no
`download_fire_mask` entry, so looking that name up raises
`AttributeError`, modelled by `none`. -/
def terraResolveMethod : String → Option TerraMethod
  | "download" => some TerraMethod.downloadBase
  | "download_cloud_mask" => some TerraMethod.downloadCloudMask
  | _ => none

/-- Python `s.split(" ")`: splits at every single occurrence of the space
character, keeping empty pieces, and never drops characters. -/
def pySplitSpace : List Char → List (List Char)
  | [] => [[]]
  | c :: rest =>
    if c = ' ' then [] :: pySplitSpace rest
    else
      match pySplitSpace rest with
      | [] => [[c]]
      | p :: ps => (c :: p) :: ps

/-- The numeric value of a run of decimal digit characters, most
significant first. -/
def natOfDigits (ds : List Char) : Nat :=
  ds.foldl (fun a c => a * 10 + (c.toNat - 48)) 0

/-- Helper for `pyInt`: a nonempty all-digit run parses to its value,
anything else is rejected. -/
def parseDigitRun (ds : List Char) : Option Nat :=
  if ds.isEmpty then none
  else if ds.all Char.isDigit then some (natOfDigits ds)
  else none

/-- The Python built-in `int(x)` applied to one component string
(`downloader_terra.py`, line 104): an optional sign followed by a nonempty
digit run converts to the signed value; any other content — in particular
anything containing a decimal point — raises `ValueError`, modelled by
`none`.  (The built-in also tolerates surrounding whitespace and digit
grouping with underscores; neither can occur in a component of
`region.split(" ")` relevant here.) -/
def pyInt (cs : List Char) : Option Int :=
  match cs with
  | [] => none
  | c :: rest =>
    if c = '-' then (parseDigitRun rest).map (fun n => -(n : Int))
    else if c = '+' then (parseDigitRun rest).map (fun n => (n : Int))
    else (parseDigitRun (c :: rest)).map (fun n => (n : Int))

/-- Specification-side notion used to state the region-parsing claim: a
component string is an integer literal when it is an optional sign
followed by a nonempty run of decimal digits. -/
def isIntLit (cs : List Char) : Bool :=
  match cs with
  | [] => false
  | c :: rest =>
    if c = '-' ∨ c = '+' then !rest.isEmpty && rest.all Char.isDigit
    else (c :: rest).all Char.isDigit

/-- Specification-side value of an integer literal: the signed positional
value of its digit run. -/
def litVal (cs : List Char) : Int :=
  match cs with
  | [] => 0
  | c :: rest =>
    if c = '-' then -(natOfDigits rest : Int)
    else if c = '+' then (natOfDigits rest : Int)
    else (natOfDigits (c :: rest) : Int)

/-- Sequential conversion of every component with `int`; the first
component that fails makes the whole conversion fail. -/
def pyIntList : List (List Char) → Option (List Int)
  | [] => some []
  | c :: cs =>
    match pyInt c with
    | none => none
    | some v =>
      match pyIntList cs with
      | none => none
      | some vs => some (v :: vs)

/-- `tuple(map(lambda x: int(x), region.split(" ")))`
(`downloader_terra.py`, line 104): every component must convert, in order;
a single failing component raises `ValueError` for the whole conversion. -/
def parseRegion (region : String) : Option (List Int) :=
  pyIntList (pySplitSpace region.data)

/-- Errors the Terra entry point can raise before or during its
downloads. -/
inductive TerraEntryError where
  | valueError
  | attributeError (name : String)
  deriving DecidableEq, Repr

/-- The method names the Terra entry point (`downloader_terra.py`, lines
79-127) invokes on the `MODISTerraDownload` instance, in order:
`download()` always, `download_cloud_mask()` when `cloud_mask`,
`download_fire_mask()` when `fire_mask`. -/
def terraEntryCalls (cloud_mask fire_mask : Bool) : List String :=
  ["download"]
    ++ (if cloud_mask then ["download_cloud_mask"] else [])
    ++ (if fire_mask then ["download_fire_mask"] else [])

/-- Resolve and run a sequence of attribute lookups in order; the first
name the class does not define raises `AttributeError` with that name. -/
def terraInvokeAll : List String → Except TerraEntryError (List TerraMethod)
  | [] => Except.ok []
  | n :: ns =>
    match terraResolveMethod n with
    | none => Except.error (TerraEntryError.attributeError n)
    | some m =>
      match terraInvokeAll ns with
      | Except.error e => Except.error e
      | Except.ok ms => Except.ok (m :: ms)

/-- The Terra entry point `download` (`downloader_terra.py`, lines
79-127): parse the region string into the bounding box (line 104, before
anything else), then invoke the downloader methods per the flags.  The
result is the bounding box together with the methods actually run. -/
def terraEntryRun (region : String) (cloud_mask fire_mask : Bool) :
    Except TerraEntryError (List Int × List TerraMethod) :=
  match parseRegion region with
  | none => Except.error TerraEntryError.valueError
  | some bounding_box =>
    (terraInvokeAll (terraEntryCalls cloud_mask fire_mask)).map
      (fun ms => (bounding_box, ms))

/-- A minimal collaborator record: authenticated session, empty catalog
result, identity parsers, transports that return empty pairs.  Used to
instantiate run-level theorems at concrete inputs. -/
def trivialCollab : Collab :=
  { authenticated := true
    queryResults := []
    granToTime := id
    msgDownloadFn := fun _ => ([], [])
    msgCmDownloadFn := fun _ => ([], [])
    fileToAcq := id }

/-- C10: the two successive definitions of
`MODISTerraDownload.download_cloud_mask` issue the identical external
`modis_download` call (Terra, level L2, identifier 35, 1KM, CM subpath)
on every instance, so the second definition shadowing the first leaves
the cloud-mask behavior of the class unchanged. -/
theorem terra_cloud_mask_shadowing_equal (self : MODISTerraDownload) :
    self.download_cloud_mask_first = self.download_cloud_mask_second := rfl

/-- C2: the selector maps every product name with the MYD Aqua prefix to
the Aqua variant and every name with the MOD Terra prefix to the Terra
variant, but on any other prefix it leaves the selected downloader UNSET
(the source has no else branch), so the orchestrator fails with
`UnboundLocalError` at the first use instead of the
`UnknownProductError` the claim requires. -/
theorem selector_fallthrough_leaves_downloader_unset :
    (∀ s : String, selectModisDownloader ("MYD" ++ s) = some PolarSat.aqua)
    ∧ (∀ s : String, selectModisDownloader ("MOD" ++ s) = some PolarSat.terra)
    ∧ selectModisDownloader "VNP02IMG" = none
    ∧ (orchestratorRun "VNP02IMG" true true "/tmp" trivialCollab).2 =
        Except.error (RunError.unboundLocalError "modis_downloader") := by
  refine ⟨?_, ?_, by decide, rfl⟩
  · intro s
    simp [selectModisDownloader, pyStartsWith, String.data_append]
  · intro s
    simp [selectModisDownloader, pyStartsWith, String.data_append]

/-- C3: the Terra downloader class defines no `download_fire_mask`
method, yet the entry point invokes that name (last, after base and
cloud-mask) whenever the fire-mask flag is set, so the invocation raises
`AttributeError` instead of being a defined operation. -/
theorem terra_fire_mask_method_missing :
    terraResolveMethod "download_fire_mask" = none
    ∧ "download_fire_mask" ∈ terraEntryCalls true true
    ∧ terraEntryRun "-130 -15 -90 5" true true =
        Except.error (TerraEntryError.attributeError "download_fire_mask") :=
  ⟨rfl, by decide, rfl⟩

/-- C1 counterexample: a cloud-mask file list of length 2 against a
cloud-mask query-timestamp list of length 3 (base lists of length 3, so
the base manifest would have 3 rows) makes the run abort on the
cloud-mask assertion: no manifest at all is emitted, refuting the claim
that the base manifest is still written. -/
theorem cloud_mask_mismatch_counterexample :
    buildManifest true ["a", "b", "c"] ["q1", "q2", "q3"] ["d", "e"] ["r1", "r2", "r3"] id =
      Except.error (RunError.reconciliationError "Mismatch between queries and downloaded files")
    ∧ ¬ ∃ m : Manifest,
        buildManifest true ["a", "b", "c"] ["q1", "q2", "q3"] ["d", "e"] ["r1", "r2", "r3"] id =
          Except.ok (some m) := by
  refine ⟨rfl, ?_⟩
  rintro ⟨m, hm⟩
  rw [show buildManifest true ["a", "b", "c"] ["q1", "q2", "q3"] ["d", "e"] ["r1", "r2", "r3"] id =
      Except.error
        (RunError.reconciliationError "Mismatch between queries and downloaded files") from rfl]
    at hm
  exact Except.noConfusion hm

/-- C1 amended: a length mismatch between the cloud-mask file list and
the cloud-mask query-timestamp list hits the assertion OUTSIDE the
try block and aborts the run with no manifest; only when those two lists
agree with each other but their common length differs from the base row
count is the failure caught and logged, with the base manifest emitted
without cloud-mask columns. -/
theorem cloud_mask_mismatch_aborts_manifest
    (files queries cmf cmq : List String) (f : String → String)
    (hne : files ≠ []) (hlen : files.length = queries.length) :
    (cmf.length ≠ cmq.length →
      buildManifest true files queries cmf cmq f =
        Except.error
          (RunError.reconciliationError "Mismatch between queries and downloaded files"))
    ∧ (cmf.length = cmq.length → cmq.length ≠ queries.length →
      buildManifest true files queries cmf cmq f =
        Except.ok (some ⟨queries, files.map f, none, none⟩)) := by
  have h0 : 0 < files.length := List.length_pos.mpr hne
  have h0q : queries ≠ [] := by
    rw [← List.length_pos, ← hlen]
    exact h0
  constructor
  · intro hcm
    simp [buildManifest, h0, hlen, hcm, h0q]
  · intro hcm hrow
    simp [buildManifest, h0, hlen, hcm, hrow, h0q]

theorem cloud_mask_mismatch_aborts_manifest_witness :
    buildManifest true ["a", "b", "c"] ["q1", "q2", "q3"] ["d"] ["r1", "r2"] id =
      Except.error
        (RunError.reconciliationError "Mismatch between queries and downloaded files") :=
  (cloud_mask_mismatch_aborts_manifest ["a", "b", "c"] ["q1", "q2", "q3"] ["d"]
    ["r1", "r2"] id (by decide) (by decide)).1 (by decide)

/-- C4: with a nonempty MSG file list, a length mismatch between the
file list and the query-timestamp list always aborts manifest building
with the reconciliation assertion error, for any cloud-mask flag and any
cloud-mask inputs; no manifest is produced. -/
theorem base_mismatch_raises_reconciliation
    (cloud_mask : Bool) (files queries cmf cmq : List String) (f : String → String)
    (hne : files ≠ []) (hlen : files.length ≠ queries.length) :
    buildManifest cloud_mask files queries cmf cmq f =
      Except.error
        (RunError.reconciliationError "Mismatch between queries and downloaded files") := by
  have h0 : 0 < files.length := List.length_pos.mpr hne
  simp [buildManifest, h0, hlen]

theorem base_mismatch_raises_reconciliation_witness :
    buildManifest true ["a", "b"] ["q1"] [] [] id =
      Except.error
        (RunError.reconciliationError "Mismatch between queries and downloaded files") :=
  base_mismatch_raises_reconciliation true ["a", "b"] ["q1"] [] [] id (by decide) (by decide)

/-- C5 counterexample: three requested MODIS query timestamps but an MSG
downloader that returns two index-aligned (file, matched query) pairs:
base reconciliation succeeds (2 = 2), yet the emitted manifest has 2
rows, not `len(modis_query_timestamps) = 3`, refuting the claimed row
count. -/
theorem manifest_row_count_counterexample :
    manifestFromRun ["t1", "t2", "t3"] (fun _ => (["f1", "f2"], ["t1", "t2"]))
      (fun _ => ([], [])) false id =
      Except.ok (some ⟨["t1", "t2"], ["f1", "f2"], none, none⟩)
    ∧ ¬ ∃ m : Manifest,
        manifestFromRun ["t1", "t2", "t3"] (fun _ => (["f1", "f2"], ["t1", "t2"]))
          (fun _ => ([], [])) false id = Except.ok (some m)
        ∧ m.modisCol.length = (["t1", "t2", "t3"] : List String).length := by
  refine ⟨rfl, ?_⟩
  rintro ⟨m, hm, hlen⟩
  rw [show manifestFromRun ["t1", "t2", "t3"] (fun _ => (["f1", "f2"], ["t1", "t2"]))
      (fun _ => ([], [])) false id =
      Except.ok (some ⟨["t1", "t2"], ["f1", "f2"], none, none⟩) from rfl] at hm
  injection hm with h1
  injection h1 with h2
  subst h2
  simp at hlen

/-- C5 amended: whenever base reconciliation succeeds, the manifest has
exactly `len(msg_query_timestamps)` rows, and row i pairs
`msg_query_timestamps[i]` — the matched query timestamp echoed by the
geostationary downloader, which the code uses as the MODIS column — with
the acquisition time derived from the i-th downloaded file name, in input
order; the row count equals `len(modis_query_timestamps)` when the
downloader returns a matched query for every requested timestamp. -/
theorem manifest_pairs_echoed_queries
    (modisTs : List String) (dl cmdl : List String → List String × List String)
    (cloud_mask : Bool) (f : String → String)
    (hne : (dl modisTs).1 ≠ [])
    (hlen : (dl modisTs).1.length = (dl modisTs).2.length)
    (hcm : cloud_mask = true → (cmdl modisTs).1.length = (cmdl modisTs).2.length) :
    ∃ m : Manifest,
      manifestFromRun modisTs dl cmdl cloud_mask f = Except.ok (some m)
      ∧ m.modisCol = (dl modisTs).2
      ∧ m.msgCol = (dl modisTs).1.map f
      ∧ m.modisCol.length = (dl modisTs).2.length
      ∧ (∀ i : Nat, m.modisCol[i]? = (dl modisTs).2[i]?
          ∧ m.msgCol[i]? = ((dl modisTs).1[i]?).map f)
      ∧ ((dl modisTs).2 = modisTs → m.modisCol.length = modisTs.length) := by
  have h0 : 0 < (dl modisTs).1.length := List.length_pos.mpr hne
  have h0q : (dl modisTs).2 ≠ [] := by
    rw [← List.length_pos, ← hlen]
    exact h0
  cases cloud_mask with
  | false =>
    refine ⟨⟨(dl modisTs).2, (dl modisTs).1.map f, none, none⟩, ?_, rfl, rfl, rfl, ?_, ?_⟩
    · simp [manifestFromRun, buildManifest, h0, hlen, h0q]
    · intro i
      exact ⟨rfl, by simp [List.getElem?_map]⟩
    · intro h
      rw [h]
  | true =>
    have hcml := hcm rfl
    by_cases hrow : (cmdl modisTs).2.length = (dl modisTs).2.length
    · refine ⟨⟨(dl modisTs).2, (dl modisTs).1.map f, some (cmdl modisTs).2,
        some ((cmdl modisTs).1.map f)⟩, ?_, rfl, rfl, rfl, ?_, ?_⟩
      · simp [manifestFromRun, buildManifest, h0, hlen, h0q, hcml, hrow]
      · intro i
        exact ⟨rfl, by simp [List.getElem?_map]⟩
      · intro h
        rw [h]
    · refine ⟨⟨(dl modisTs).2, (dl modisTs).1.map f, none, none⟩, ?_, rfl, rfl, rfl, ?_, ?_⟩
      · simp [manifestFromRun, buildManifest, h0, hlen, h0q, hcml, hrow]
      · intro i
        exact ⟨rfl, by simp [List.getElem?_map]⟩
      · intro h
        rw [h]

theorem manifest_pairs_echoed_queries_witness :
    ∃ m : Manifest,
      manifestFromRun ["t1", "t2"] (fun _ => (["f1", "f2"], ["t1", "t2"]))
        (fun _ => ([], [])) false id = Except.ok (some m)
      ∧ m.modisCol = ((fun _ => ((["f1", "f2"] : List String), (["t1", "t2"] : List String)))
          (["t1", "t2"] : List String)).2
      ∧ m.msgCol = ((fun _ => ((["f1", "f2"] : List String), (["t1", "t2"] : List String)))
          (["t1", "t2"] : List String)).1.map id
      ∧ m.modisCol.length = ((fun _ => ((["f1", "f2"] : List String), (["t1", "t2"] : List String)))
          (["t1", "t2"] : List String)).2.length
      ∧ (∀ i : Nat, m.modisCol[i]? = ((fun _ => ((["f1", "f2"] : List String), (["t1", "t2"] : List String)))
            (["t1", "t2"] : List String)).2[i]?
          ∧ m.msgCol[i]? = (((fun _ => ((["f1", "f2"] : List String), (["t1", "t2"] : List String)))
            (["t1", "t2"] : List String)).1[i]?).map id)
      ∧ (((fun _ => ((["f1", "f2"] : List String), (["t1", "t2"] : List String)))
          (["t1", "t2"] : List String)).2 = ["t1", "t2"] →
          m.modisCol.length = (["t1", "t2"] : List String).length) :=
  manifest_pairs_echoed_queries ["t1", "t2"] (fun _ => (["f1", "f2"], ["t1", "t2"]))
    (fun _ => ([], [])) false id (by decide) (by decide) (by intro h; exact absurd h (by decide))

/-- C6: when the MSG downloader produces no files, the run logs the
granule count, performs no manifest write, and finishes with a no-op
result rather than an error, whatever the flags. -/
theorem empty_msg_result_is_noop
    (product : String) (cloud_mask fire_mask : Bool) (save_dir : String)
    (c : Collab) (sat : PolarSat)
    (hauth : c.authenticated = true)
    (hsel : selectModisDownloader product = some sat)
    (hempty : (c.msgDownloadFn (c.queryResults.map c.granToTime)).1 = []) :
    (orchestratorRun product cloud_mask fire_mask save_dir c).2 = Except.ok none
    ∧ Event.manifestWrite ∉ (orchestratorRun product cloud_mask fire_mask save_dir c).1
    ∧ Event.logGranuleCount c.queryResults.length ∈
        (orchestratorRun product cloud_mask fire_mask save_dir c).1 := by
  cases cloud_mask <;> cases fire_mask <;>
    simp [orchestratorRun, hauth, hsel, MSGDownload.download, MSGDownload.download_cloud_mask,
      orchestratorMsgDownloader, buildManifest, hempty]

theorem empty_msg_result_is_noop_witness :
    (orchestratorRun "MOD021KM" true true "/tmp" trivialCollab).2 = Except.ok none
    ∧ Event.manifestWrite ∉ (orchestratorRun "MOD021KM" true true "/tmp" trivialCollab).1
    ∧ Event.logGranuleCount trivialCollab.queryResults.length ∈
        (orchestratorRun "MOD021KM" true true "/tmp" trivialCollab).1 :=
  empty_msg_result_is_noop "MOD021KM" true true "/tmp" trivialCollab PolarSat.terra
    rfl (by decide) rfl

/-- C7: the overpass timestamp list is the order-preserving image of the
granule identifiers under the conversion function — same length, i-th
element the conversion of the i-th identifier — and exactly that list is
stored as the predefined timestamps of the MSG downloader the
orchestrator constructs and hands to the MSG base download. -/
theorem overpass_timestamps_verbatim
    (product : String) (cloud_mask fire_mask : Bool) (save_dir : String)
    (c : Collab) (sat : PolarSat) (i : Nat)
    (hauth : c.authenticated = true)
    (hsel : selectModisDownloader product = some sat) :
    (orchestratorMsgDownloader c.granToTime c.queryResults save_dir).predefined_timestamps =
      c.queryResults.map c.granToTime
    ∧ (orchestratorMsgDownloader c.granToTime c.queryResults save_dir).predefined_timestamps.length =
        c.queryResults.length
    ∧ (orchestratorMsgDownloader c.granToTime c.queryResults save_dir).predefined_timestamps[i]? =
        (c.queryResults[i]?).map c.granToTime
    ∧ Event.msgBaseDownload
        (orchestratorMsgDownloader c.granToTime c.queryResults save_dir).predefined_timestamps ∈
        (orchestratorRun product cloud_mask fire_mask save_dir c).1 := by
  refine ⟨rfl, by simp [orchestratorMsgDownloader],
    by simp [orchestratorMsgDownloader, List.getElem?_map], ?_⟩
  simp only [orchestratorRun, hauth, hsel, if_true]
  split <;> simp [orchestratorMsgDownloader]

theorem overpass_timestamps_verbatim_witness :
    (orchestratorMsgDownloader trivialCollab.granToTime trivialCollab.queryResults
        "/tmp").predefined_timestamps =
      trivialCollab.queryResults.map trivialCollab.granToTime
    ∧ (orchestratorMsgDownloader trivialCollab.granToTime trivialCollab.queryResults
        "/tmp").predefined_timestamps.length = trivialCollab.queryResults.length
    ∧ (orchestratorMsgDownloader trivialCollab.granToTime trivialCollab.queryResults
        "/tmp").predefined_timestamps[0]? =
        (trivialCollab.queryResults[0]?).map trivialCollab.granToTime
    ∧ Event.msgBaseDownload
        (orchestratorMsgDownloader trivialCollab.granToTime trivialCollab.queryResults
          "/tmp").predefined_timestamps ∈
        (orchestratorRun "MYD021KM" false false "/tmp" trivialCollab).1 :=
  overpass_timestamps_verbatim "MYD021KM" false false "/tmp" trivialCollab PolarSat.aqua 0
    rfl (by decide)

/-- C8: every orchestrator run performs the authentication check as its
very first step, and when the provider session is missing the run is
exactly the failed check: it aborts with the authentication error and no
catalog query, download, or manifest write appears in the trace. -/
theorem auth_precedes_all_and_failure_aborts
    (product : String) (cloud_mask fire_mask : Bool) (save_dir : String) (c : Collab) :
    (orchestratorRun product cloud_mask fire_mask save_dir c).1.head? = some Event.authCheck
    ∧ (c.authenticated = false →
        orchestratorRun product cloud_mask fire_mask save_dir c =
          ([Event.authCheck], Except.error RunError.authenticationError)) := by
  constructor
  · cases hauth : c.authenticated with
    | false => simp [orchestratorRun, hauth]
    | true =>
      simp only [orchestratorRun, hauth, if_true]
      cases hsel : selectModisDownloader product with
      | none => rfl
      | some sat =>
        simp only []
        split <;> rfl
  · intro h
    simp [orchestratorRun, h]

theorem auth_precedes_all_and_failure_aborts_witness :
    (orchestratorRun "MOD021KM" false false "/tmp"
        { trivialCollab with authenticated := false }).1.head? = some Event.authCheck
    ∧ orchestratorRun "MOD021KM" false false "/tmp"
        { trivialCollab with authenticated := false } =
        ([Event.authCheck], Except.error RunError.authenticationError) :=
  ⟨(auth_precedes_all_and_failure_aborts "MOD021KM" false false "/tmp"
      { trivialCollab with authenticated := false }).1,
    (auth_precedes_all_and_failure_aborts "MOD021KM" false false "/tmp"
      { trivialCollab with authenticated := false }).2 rfl⟩

/-- Splitting a space-free run followed by a space peels off exactly that
run. -/
theorem pySplitSpace_append (w r : List Char) (hw : ∀ ch ∈ w, ch ≠ ' ') :
    pySplitSpace (w ++ ' ' :: r) = w :: pySplitSpace r := by
  induction w with
  | nil => simp [pySplitSpace]
  | cons c rest ih =>
    have hc : c ≠ ' ' := hw c (by simp)
    have hrest : ∀ ch ∈ rest, ch ≠ ' ' := fun ch h => hw ch (by simp [h])
    simp only [List.cons_append, pySplitSpace, if_neg hc, List.append_eq]
    rw [ih hrest]

/-- Splitting a space-free string yields that single component. -/
theorem pySplitSpace_no_space (w : List Char) (hw : ∀ ch ∈ w, ch ≠ ' ') :
    pySplitSpace w = [w] := by
  induction w with
  | nil => rfl
  | cons c rest ih =>
    have hc : c ≠ ' ' := hw c (by simp)
    have hrest : ∀ ch ∈ rest, ch ≠ ' ' := fun ch h => hw ch (by simp [h])
    simp only [pySplitSpace, if_neg hc]
    rw [ih hrest]

/-- An integer literal contains no space character. -/
theorem isIntLit_no_space (cs : List Char) (h : isIntLit cs = true) :
    ∀ ch ∈ cs, ch ≠ ' ' := by
  cases cs with
  | nil => simp [isIntLit] at h
  | cons c rest =>
    intro ch hch hsp
    subst hsp
    simp only [isIntLit] at h
    rcases List.mem_cons.mp hch with hc | hr
    · subst hc
      split at h
      · rename_i hsign
        rcases hsign with h1 | h1 <;> exact absurd h1 (by decide)
      · simp at h
    · have hall : rest.all Char.isDigit = true := by
        split at h
        · simp only [Bool.and_eq_true] at h
          exact h.2
        · simp only [List.all_cons, Bool.and_eq_true] at h
          exact h.2
      exact absurd (List.all_eq_true.mp hall ' ' hr) (by decide)

/-- The Python integer conversion agrees with the literal value on every
integer literal. -/
theorem pyInt_intLit (cs : List Char) (h : isIntLit cs = true) :
    pyInt cs = some (litVal cs) := by
  cases cs with
  | nil => simp [isIntLit] at h
  | cons c rest =>
    simp only [isIntLit] at h
    by_cases hm : c = '-'
    · subst hm
      rw [if_pos (Or.inl rfl)] at h
      simp only [Bool.and_eq_true, Bool.not_eq_true'] at h
      simp [pyInt, litVal, parseDigitRun, h.1, h.2]
    · by_cases hp : c = '+'
      · subst hp
        rw [if_pos (Or.inr rfl)] at h
        simp only [Bool.and_eq_true, Bool.not_eq_true'] at h
        simp [pyInt, litVal, parseDigitRun, h.1, h.2]
      · rw [if_neg (by tauto)] at h
        simp [pyInt, litVal, parseDigitRun, hm, hp, h]

/-- C9: the Terra entry point converts the region string with the
whitespace split and the integer conversion: four integer-literal
components produce exactly their four values in order, also as the
bounding box of a successful entry run; the fractional region string of
the claim is rejected, and any rejected region string aborts the entry
point with the conversion error before any downloader method is
invoked. -/
theorem region_four_int_literals
    (w x y z : List Char)
    (hw : isIntLit w = true) (hx : isIntLit x = true)
    (hy : isIntLit y = true) (hz : isIntLit z = true) :
    parseRegion (String.mk (w ++ ' ' :: (x ++ ' ' :: (y ++ ' ' :: z)))) =
      some [litVal w, litVal x, litVal y, litVal z]
    ∧ terraEntryRun (String.mk (w ++ ' ' :: (x ++ ' ' :: (y ++ ' ' :: z)))) false false =
        Except.ok ([litVal w, litVal x, litVal y, litVal z], [TerraMethod.downloadBase])
    ∧ parseRegion "-10.5 30.2 46.6 49.0" = none
    ∧ (∀ (region : String) (cm fm : Bool), parseRegion region = none →
        terraEntryRun region cm fm = Except.error TerraEntryError.valueError) := by
  have hsplit : pySplitSpace (w ++ ' ' :: (x ++ ' ' :: (y ++ ' ' :: z))) = [w, x, y, z] := by
    rw [pySplitSpace_append w _ (isIntLit_no_space w hw),
        pySplitSpace_append x _ (isIntLit_no_space x hx),
        pySplitSpace_append y _ (isIntLit_no_space y hy),
        pySplitSpace_no_space z (isIntLit_no_space z hz)]
  have hparse : parseRegion (String.mk (w ++ ' ' :: (x ++ ' ' :: (y ++ ' ' :: z)))) =
      some [litVal w, litVal x, litVal y, litVal z] := by
    show pyIntList (pySplitSpace (w ++ ' ' :: (x ++ ' ' :: (y ++ ' ' :: z)))) =
      some [litVal w, litVal x, litVal y, litVal z]
    rw [hsplit]
    simp [pyIntList, pyInt_intLit w hw, pyInt_intLit x hx,
      pyInt_intLit y hy, pyInt_intLit z hz]
  refine ⟨hparse, ?_, rfl, ?_⟩
  · unfold terraEntryRun
    rw [hparse]
    rfl
  · intro region cm fm hnone
    unfold terraEntryRun
    rw [hnone]

theorem region_four_int_literals_witness :
    parseRegion (String.mk (['-', '1', '3', '0'] ++ ' ' ::
        (['-', '1', '5'] ++ ' ' :: (['-', '9', '0'] ++ ' ' :: ['5'])))) =
      some [litVal ['-', '1', '3', '0'], litVal ['-', '1', '5'],
        litVal ['-', '9', '0'], litVal ['5']]
    ∧ terraEntryRun (String.mk (['-', '1', '3', '0'] ++ ' ' ::
        (['-', '1', '5'] ++ ' ' :: (['-', '9', '0'] ++ ' ' :: ['5'])))) false false =
        Except.ok ([litVal ['-', '1', '3', '0'], litVal ['-', '1', '5'],
          litVal ['-', '9', '0'], litVal ['5']], [TerraMethod.downloadBase])
    ∧ parseRegion "-10.5 30.2 46.6 49.0" = none
    ∧ (∀ (region : String) (cm fm : Bool), parseRegion region = none →
        terraEntryRun region cm fm = Except.error TerraEntryError.valueError) :=
  region_four_int_literals ['-', '1', '3', '0'] ['-', '1', '5'] ['-', '9', '0'] ['5']
    (by decide) (by decide) (by decide) (by decide)

end RsTools
